import Mathlib

/-!
Verification development for the agent-rag-mcp repository.

The repository is a FastMCP server orchestrating three external backends
(a generative file-search API, a vector database, and an embedding server).
We shallowly embed the orchestration layer:

* `src/agent_rag_mcp/server/main.py` — store-name derivation,
  startup lifespan sequencing, the four tool handlers, the request parser;
* `src/agent_rag_mcp/server/weaviate_store.py` — the Experience Store
  `add_experience` property derivation.

Python values flowing through the request parser and the experience store
are modelled by the inductive type `PyVal`; exceptions are modelled by
`Except`; external-backend outcomes (clone results, search results, insert
results, generated text) are universally quantified parameters.
All definitions use structural recursion so that concrete runs reduce
inside the kernel.
-/

/-- Left and right curly brace characters (used when modelling JSON). -/
def lbrace : Char := Char.ofNat 123

/-- Right curly brace character. -/
def rbrace : Char := Char.ofNat 125

/-- Model of a Python value as it appears after `yaml.safe_load` /
`json.loads`: `None`, booleans, integers, strings, lists and dicts
(dicts as association lists in insertion order). -/
inductive PyVal where
  | pynone : PyVal
  | bool (b : Bool) : PyVal
  | int (n : Int) : PyVal
  | str (s : String) : PyVal
  | list (xs : List PyVal) : PyVal
  | dict (xs : List (String × PyVal)) : PyVal
deriving Repr

/-- Python `d[k]` lookup on a dict association list (first binding wins,
matching Python dict semantics where keys are unique). -/
def pyLookup : List (String × PyVal) → String → Option PyVal
  | [], _ => none
  | (k, v) :: rest, key => if k = key then some v else pyLookup rest key

/-- Python `d.get(k, default)` on a dict. -/
def pyGetD (d : List (String × PyVal)) (k : String) (dflt : PyVal) : PyVal :=
  match pyLookup d k with
  | some v => v
  | none => dflt

/-- Python `v.get(k, default)` where `v` is an arbitrary value: raises
`AttributeError` (modelled as `Except.error`) when `v` is not a dict. -/
def pyAttrGetD (v : PyVal) (k : String) (dflt : PyVal) : Except String PyVal :=
  match v with
  | .dict d => .ok (pyGetD d k dflt)
  | _ => .error "AttributeError: object has no attribute get"

/-- Python `v.get(k)` (no default, yields `None` when absent); raises when
`v` is not a dict. -/
def pyAttrGet (v : PyVal) (k : String) : Except String (Option PyVal) :=
  match v with
  | .dict d => .ok (pyLookup d k)
  | _ => .error "AttributeError: object has no attribute get"

-- ============================================================================
-- Character-level string helpers (structural, kernel-computable)
-- ============================================================================

/-- Python `str.rstrip("/")` on the character list. -/
def rstripSlash (l : List Char) : List Char :=
  (l.reverse.dropWhile (fun c => c = '/')).reverse

/-- Python `str.lstrip("/")`. -/
def lstripSlash (l : List Char) : List Char :=
  l.dropWhile (fun c => c = '/')

/-- Python `str.removesuffix(".git")`. -/
def removeSuffixGit (l : List Char) : List Char :=
  if ".git".data.isSuffixOf l then l.take (l.length - 4) else l

/-- Python `url.split(":")[-1]`: the segment after the last colon
(the whole string when no colon occurs). -/
def afterLastColon (l : List Char) : List Char :=
  (l.reverse.takeWhile (fun c => c ≠ ':')).reverse

/-- Characters CPython `urllib.parse` accepts inside a URL scheme. -/
def schemeChar (c : Char) : Bool :=
  c.isAlphanum || c = '+' || c = '-' || c = '.'

/-- Model of CPython `urlparse(url).path` for scheme-and-netloc splitting:
strip a leading `scheme:` (first char alphabetic, all scheme chars),
then a `//netloc` part running to the first `/`, `?` or `#`, then cut the
query and fragment. -/
def urlparsePath (l : List Char) : List Char :=
  let afterScheme :=
    match l.findIdx? (fun c => c = ':') with
    | some i =>
      let headAlpha : Bool :=
        match l.head? with
        | some c => c.isAlpha
        | none => false
      if decide (0 < i) && (l.take i).all schemeChar && headAlpha then
        l.drop (i + 1)
      else l
    | none => l
  let afterNetloc :=
    if afterScheme.take 2 = ['/', '/'] then
      (afterScheme.drop 2).dropWhile (fun c => !(c = '/' || c = '?' || c = '#'))
    else afterScheme
  afterNetloc.takeWhile (fun c => !(c = '#' || c = '?'))

/-- The character class kept by `re.sub(r"[^a-z0-9-]", "", store_name)`. -/
def allowedChar (c : Char) : Bool :=
  (decide ('a' ≤ c) && decide (c ≤ 'z')) ||
  (decide ('0' ≤ c) && decide (c ≤ '9')) || c = '-'

/-- Python `str.strip("-")`. -/
def stripDashes (l : List Char) : List Char :=
  ((l.dropWhile (fun c => c == '-')).reverse.dropWhile (fun c => c == '-')).reverse

/-- The normalization tail of `generate_store_name_from_url`
(`main.py` lines 71-78): lowercase, `/` → `-`, drop characters outside
`[a-z0-9-]`, strip surrounding dashes. -/
def normalizedStoreChars (l : List Char) : List Char :=
  stripDashes
    (((l.map Char.toLower).map (fun c => if c = '/' then '-' else c)).filter
      allowedChar)

/-- The characters `generate_store_name_from_url` normalizes (lines
59-69): strip trailing slashes and a `.git` suffix; SSH-style `git@` URLs
keep the part after the last colon, other URLs their HTTP path with
leading slashes removed. -/
def urlPathOf (repo_url : String) : List Char :=
  let url := removeSuffixGit (rstripSlash repo_url.data)
  if "git@".data.isPrefixOf url then afterLastColon url
  else lstripSlash (urlparsePath url)

/-- Normalize a character sequence into a store name, with the sentinel
fallback of line 80 (`store_name or "unknown-repo"`). -/
def storeNameOfChars (l : List Char) : String :=
  let stripped := normalizedStoreChars l
  if stripped.isEmpty then "unknown-repo" else ⟨stripped⟩

/-- `generate_store_name_from_url` (`server/main.py` lines 52-80). -/
def generate_store_name_from_url (repo_url : String) : String :=
  storeNameOfChars (urlPathOf repo_url)

-- ============================================================================
-- Model of `json.loads` (src uses the Python stdlib; external collaborator).
-- Fueled recursive-descent parser over the character list; covers objects,
-- arrays, strings with the common escapes, integers, true/false/null.
-- Floats and \u escapes are outside the modelled subset (unused here).
-- ============================================================================

/-- JSON whitespace. -/
def jsonWs (c : Char) : Bool :=
  c = ' ' || c = '\n' || c = '\r' || c = '\t'

/-- Parse the body of a JSON string after the opening quote; returns the
decoded characters and the input remaining after the closing quote. -/
def jsonStr : List Char → Option (List Char × List Char)
  | [] => none
  | c :: rest =>
    if c = '"' then some ([], rest)
    else if c = '\\' then
      match rest with
      | [] => none
      | e :: rest2 =>
        let dec : Option Char :=
          if e = '"' then some '"'
          else if e = '\\' then some '\\'
          else if e = '/' then some '/'
          else if e = 'n' then some '\n'
          else if e = 't' then some '\t'
          else if e = 'r' then some '\r'
          else none
        match dec with
        | none => none
        | some d =>
          match jsonStr rest2 with
          | some (s, r) => some (d :: s, r)
          | none => none
    else
      match jsonStr rest with
      | some (s, r) => some (c :: s, r)
      | none => none

/-- Digits to a natural number (most significant first). -/
def digitsVal (l : List Char) : Nat :=
  l.foldl (fun acc c => acc * 10 + (c.toNat - 48)) 0

/-- Parse the members of a JSON object after the opening brace.
`parse` is the value parser (the recursive call one fuel level down);
`allowEnd` is false right after a comma (no trailing commas). -/
def jsonObjItems (parse : List Char → Option (PyVal × List Char)) :
    Nat → Bool → List Char → Option (List (String × PyVal) × List Char)
  | 0, _, _ => none
  | fuel + 1, allowEnd, l =>
    match l.dropWhile jsonWs with
    | [] => none
    | c :: rest =>
      if c = rbrace then if allowEnd then some ([], rest) else none
      else if c = '"' then
        match jsonStr rest with
        | none => none
        | some (k, r1) =>
          match r1.dropWhile jsonWs with
          | ':' :: r2 =>
            match parse r2 with
            | none => none
            | some (v, r3) =>
              match r3.dropWhile jsonWs with
              | ',' :: r4 =>
                match jsonObjItems parse fuel false r4 with
                | some (items, r5) => some ((⟨k⟩, v) :: items, r5)
                | none => none
              | c2 :: r4 =>
                if c2 = rbrace then some ([(⟨k⟩, v)], r4) else none
              | [] => none
          | _ => none
      else none

/-- Parse the elements of a JSON array after the opening bracket. -/
def jsonArrItems (parse : List Char → Option (PyVal × List Char)) :
    Nat → Bool → List Char → Option (List PyVal × List Char)
  | 0, _, _ => none
  | fuel + 1, allowEnd, l =>
    match l.dropWhile jsonWs with
    | [] => none
    | c :: rest =>
      if c = ']' then if allowEnd then some ([], rest) else none
      else
        match parse (c :: rest) with
        | none => none
        | some (v, r1) =>
          match r1.dropWhile jsonWs with
          | ',' :: r2 =>
            match jsonArrItems parse fuel false r2 with
            | some (items, r3) => some (v :: items, r3)
            | none => none
          | ']' :: r2 => some ([v], r2)
          | _ => none

/-- Parse one JSON value. -/
def jsonVal : Nat → List Char → Option (PyVal × List Char)
  | 0, _ => none
  | fuel + 1, l =>
    match l.dropWhile jsonWs with
    | [] => none
    | c :: rest =>
      if c = '"' then
        match jsonStr rest with
        | some (s, r) => some (.str ⟨s⟩, r)
        | none => none
      else if c = lbrace then
        match jsonObjItems (jsonVal fuel) (rest.length + 1) true rest with
        | some (items, r) => some (.dict items, r)
        | none => none
      else if c = '[' then
        match jsonArrItems (jsonVal fuel) (rest.length + 1) true rest with
        | some (items, r) => some (.list items, r)
        | none => none
      else if c = 't' then
        if (c :: rest).take 4 = "true".data then some (.bool true, (c :: rest).drop 4)
        else none
      else if c = 'f' then
        if (c :: rest).take 5 = "false".data then some (.bool false, (c :: rest).drop 5)
        else none
      else if c = 'n' then
        if (c :: rest).take 4 = "null".data then some (.pynone, (c :: rest).drop 4)
        else none
      else if c = '-' then
        let ds := rest.takeWhile Char.isDigit
        if ds.isEmpty then none
        else some (.int (-(digitsVal ds : Int)), rest.drop ds.length)
      else if c.isDigit then
        let ds := (c :: rest).takeWhile Char.isDigit
        some (.int (digitsVal ds : Int), (c :: rest).drop ds.length)
      else none

/-- Model of Python `json.loads`: parse one value and require that only
whitespace remains (otherwise `json.JSONDecodeError`, modelled as
`Except.error`). -/
def jsonLoads (s : String) : Except Unit PyVal :=
  match jsonVal (2 * s.data.length + 2) s.data with
  | some (v, rest) =>
    if (rest.dropWhile jsonWs).isEmpty then .ok v else .error ()
  | none => .error ()

-- ============================================================================
-- Model of `yaml.safe_load` (PyYAML; external collaborator), restricted to
-- the constructs the request payloads exercise: block mappings with
-- two-space indentation and plain or quoted scalar values, flow collections
-- and quoted scalars in JSON form, single-line plain scalars, and the empty
-- document.  Inputs outside the subset yield `Except.error` (a YAML error).
-- ============================================================================

/-- Split a character list into lines at newline characters. -/
def splitLines : List Char → List (List Char)
  | [] => [[]]
  | c :: rest =>
    let ls := splitLines rest
    if c = '\n' then [] :: ls
    else
      match ls with
      | h :: t => (c :: h) :: t
      | [] => [[c]]

/-- Characters allowed in a plain block-mapping key. -/
def yamlKeyChar (c : Char) : Bool :=
  c.isAlphanum || c = '_' || c = '-'

/-- Split a block-mapping line into key and post-colon remainder: the key
runs to the first colon, must be nonempty and plain, and the colon must be
followed by a space or end the line. -/
def yamlSplitKey (l : List Char) : Option (List Char × List Char) :=
  let k := l.takeWhile (fun c => c ≠ ':')
  let rest := l.drop k.length
  match rest with
  | ':' :: after =>
    if k.isEmpty || !(k.all yamlKeyChar) then none
    else
      match after with
      | [] => some (k, [])
      | ' ' :: _ => some (k, after)
      | _ => none
  | _ => none

/-- A scalar value on a block-mapping line: a double-quoted JSON-style
string, an integer, or a plain scalar (trailing blanks stripped). -/
def yamlScalar (l : List Char) : PyVal :=
  match l with
  | '"' :: rest =>
    match jsonStr rest with
    | some (s, r) => if (r.dropWhile (fun c => c = ' ')).isEmpty then .str ⟨s⟩ else .str ⟨l⟩
    | none => .str ⟨l⟩
  | _ =>
    if !l.isEmpty && l.all Char.isDigit then .int (digitsVal l)
    else .str ⟨(l.reverse.dropWhile (fun c => c = ' ')).reverse⟩

/-- Parse a block mapping whose entries sit at exactly `indent` spaces;
returns the entries and the lines remaining after a dedent. -/
def yamlBlockMap : Nat → Nat → List (List Char) →
    Option (List (String × PyVal) × List (List Char))
  | 0, _, _ => none
  | fuel + 1, indent, lines =>
    match lines with
    | [] => some ([], [])
    | line :: rest =>
      if line.all (fun c => c = ' ') then yamlBlockMap fuel indent rest
      else
        let ind := (line.takeWhile (fun c => c = ' ')).length
        if ind < indent then some ([], lines)
        else if indent < ind then none
        else
          match yamlSplitKey (line.drop indent) with
          | none => none
          | some (k, after) =>
            let v := after.dropWhile (fun c => c = ' ')
            if v.isEmpty then
              match yamlBlockMap fuel (indent + 2) rest with
              | none => none
              | some (inner, rem) =>
                if inner.isEmpty then none
                else
                  match yamlBlockMap fuel indent rem with
                  | some (items, rem2) => some ((⟨k⟩, .dict inner) :: items, rem2)
                  | none => none
            else
              match yamlBlockMap fuel indent rest with
              | some (items, rem2) => some ((⟨k⟩, yamlScalar v) :: items, rem2)
              | none => none

/-- Model of `yaml.safe_load` on the subset described above. -/
def yamlModel (s : String) : Except Unit PyVal :=
  let l := s.data
  let t := l.dropWhile (fun c => c = ' ' || c = '\n')
  match t with
  | [] => .ok .pynone
  | c :: _ =>
    if c = lbrace || c = '[' || c = '"' then
      -- flow collections and double-quoted scalars coincide with JSON here
      jsonLoads s
    else if c.isAlpha then
      let ls := splitLines l
      match yamlBlockMap (ls.length + 1) 0 ls with
      | some (entries, []) =>
        if entries.isEmpty then .error () else .ok (.dict entries)
      | _ =>
        -- single-line plain scalar (plain scalars may contain braces)
        if l.any (fun c => c = '\n') then .error ()
        else .ok (.str ⟨(l.reverse.dropWhile (fun c => c = ' ')).reverse⟩)
    else .error ()

-- ============================================================================
-- `_parse_code_request` (`server/main.py` lines 442-467)
-- ============================================================================

/-- `_parse_code_request`: try the TOON/YAML reading and keep it only when
it is a mapping; otherwise try JSON, and when JSON yields a string decode
it a second time (double-encoded payload).  `none` models Python `None`
(parse failure).  The yaml/json decoders are passed as parameters; the
`isinstance(request_data, dict)` branch of the source cannot fire because
the tool argument is typed `str`. -/
def parseCodeRequest (yamlP jsonP : String → Except Unit PyVal)
    (request_data : String) : Option PyVal :=
  let data : Option PyVal :=
    match yamlP request_data with
    | .ok (.dict d) => some (.dict d)
    | _ => none
  match data with
  | some d => some d
  | none =>
    match jsonP request_data with
    | .error _ => none
    | .ok v =>
      match v with
      | .str s =>
        match jsonP s with
        | .ok w => some w
        | .error _ => some (.str s)
      | _ => some v

/-- The parser as the server runs it, with the modelled decoders. -/
def parseCodeRequestRun (s : String) : Option PyVal :=
  parseCodeRequest yamlModel jsonLoads s

/-- The payload all three encodings of the C4 test denote. -/
def pythonLangDict : PyVal :=
  .dict [("request", .dict [("language", .str "Python")])]

/-- The `request.language` field of a parsed payload. -/
def requestLanguage (v : PyVal) : Option PyVal :=
  match v with
  | .dict d =>
    match pyGetD d "request" (.dict []) with
    | .dict r => pyLookup r "language"
    | _ => none
  | _ => none

-- ============================================================================
-- Models of Python rendering: `str()` / `repr()` and `json.dumps`
-- (fueled so they are kernel-computable; the fuel bounds nesting depth,
-- far beyond any payload this server sees).
-- ============================================================================

/-- A single-quote character (Python repr quoting). -/
def squote : String := String.singleton (Char.ofNat 39)

/-- Join with the default `json.dumps` item separator. -/
def joinComma : List String → String
  | [] => ""
  | [x] => x
  | x :: rest => x ++ ", " ++ joinComma rest

/-- Python `repr` (subset: strings assumed free of quotes to escape). -/
def pyReprF : Nat → PyVal → String
  | _, .pynone => "None"
  | _, .bool b => if b then "True" else "False"
  | _, .int n => toString n
  | _, .str s => squote ++ s ++ squote
  | 0, _ => ""
  | fuel + 1, .list xs => "[" ++ joinComma (xs.map (pyReprF fuel)) ++ "]"
  | fuel + 1, .dict xs =>
    ⟨[lbrace]⟩ ++
      joinComma (xs.map fun kv =>
        squote ++ kv.1 ++ squote ++ ": " ++ pyReprF fuel kv.2) ++ ⟨[rbrace]⟩

/-- Nesting-depth fuel for the renderers. -/
def dumpFuel : Nat := 1000

/-- Python `str()` of a value (as used inside f-strings). -/
def pyStr (v : PyVal) : String :=
  match v with
  | .str s => s
  | _ => pyReprF dumpFuel v

/-- JSON string escaping for `json.dumps`. -/
def jsonEscape (s : String) : String :=
  s.data.foldr
    (fun c acc =>
      (if c = '"' then "\\\""
       else if c = '\\' then "\\\\"
       else if c = '\n' then "\\n"
       else if c = '\t' then "\\t"
       else if c = '\r' then "\\r"
       else c.toString) ++ acc) ""

/-- Python `json.dumps` with the default separators. -/
def jsonDumpsF : Nat → PyVal → String
  | _, .pynone => "null"
  | _, .bool b => if b then "true" else "false"
  | _, .int n => toString n
  | _, .str s => "\"" ++ jsonEscape s ++ "\""
  | 0, _ => ""
  | fuel + 1, .list xs => "[" ++ joinComma (xs.map (jsonDumpsF fuel)) ++ "]"
  | fuel + 1, .dict xs =>
    ⟨[lbrace]⟩ ++
      joinComma (xs.map fun kv =>
        "\"" ++ jsonEscape kv.1 ++ "\": " ++ jsonDumpsF fuel kv.2) ++ ⟨[rbrace]⟩

/-- Python `json.dumps`. -/
def jsonDumps (v : PyVal) : String := jsonDumpsF dumpFuel v

-- ============================================================================
-- `ExperienceStore.add_experience` (`server/weaviate_store.py` lines 54-93)
-- ============================================================================

/-- Python `value == "SUCCESS"`: true exactly for the string `"SUCCESS"`;
`None`, any other string, or any non-string compares unequal. -/
def isSuccessToken (v : Option PyVal) : Bool :=
  match v with
  | some (.str s) => s == "SUCCESS"
  | _ => false

/-- The `request.content.result` field as the source reads it:
`request_data.get("request", {}).get("content", {}).get("result")`,
restricted to the well-typed case (each step a dict). -/
def resultField (d : List (String × PyVal)) : Option PyVal :=
  match pyGetD d "request" (.dict []) with
  | .dict r =>
    match pyGetD r "content" (.dict []) with
    | .dict c => pyLookup c "result"
    | _ => none
  | _ => none

/-- The properties row `add_experience` inserts (lines 78-87). -/
structure ExperienceProps where
  language : PyVal
  framework : PyVal
  pattern : PyVal
  input_sample : String
  code_result : String
  success : Bool
  execution_time : PyVal
  full_json : String
deriving Repr

/-- The pure part of `add_experience`: the embedding input string
(lines 65-70) and the properties row (lines 78-87).  The nested matches
mirror the evaluation order of the `.get` chains: calling `.get` on a
non-dict value raises `AttributeError` (`Except.error`); the source
re-evaluates the same pure lookups several times, which we bind once. -/
def addExperienceRecord (request_data : List (String × PyVal)) :
    Except String (String × ExperienceProps) :=
  match pyGetD request_data "request" (.dict []) with
  | .dict r =>
    match pyGetD r "design_context" (.dict []) with
    | .dict dc =>
      match pyGetD r "content" (.dict []) with
      | .dict c =>
        match pyGetD r "reproduction" (.dict []) with
        | .dict rp =>
          match pyGetD r "metrics" (.dict []) with
          | .dict m =>
            let lang := pyGetD r "language" (.str "")
            let fw := pyGetD r "framework" (.str "")
            let pat := pyGetD dc "pattern" (.str "")
            let feat := pyGetD c "feature_details" (.str "")
            let embedText :=
              "Language: " ++ pyStr lang ++ " Framework: " ++ pyStr fw ++
                " Pattern: " ++ pyStr pat ++ " Feature: " ++ pyStr feat
            .ok (embedText,
              { language := lang
                framework := fw
                pattern := pat
                input_sample := pyStr (pyGetD rp "input_sample" (.str ""))
                code_result := jsonDumps (pyGetD c "code" (.dict []))
                success := isSuccessToken (pyLookup c "result")
                execution_time := pyGetD m "execution_time_ms" (.int 0)
                full_json := jsonDumps (.dict request_data) })
          | _ => .error "AttributeError: object has no attribute get"
        | _ => .error "AttributeError: object has no attribute get"
      | _ => .error "AttributeError: object has no attribute get"
    | _ => .error "AttributeError: object has no attribute get"
  | _ => .error "AttributeError: object has no attribute get"

/-- The success flag of the record `add_experience` inserts, when the
insertion happens (`none` when `add_experience` raises instead). -/
def insertedSuccess (d : List (String × PyVal)) : Option Bool :=
  match addExperienceRecord d with
  | .ok (_, props) => some props.success
  | .error _ => none

/-- The full `add_experience` call as seen by the server: the pure record
derivation followed by the external embedding+insert, whose outcome
(`uuid` or a raised error) is the `insertOutcome` parameter. -/
def addExperienceCall (d : List (String × PyVal))
    (insertOutcome : Except String String) : Except String String :=
  match addExperienceRecord d with
  | .error e => .error e
  | .ok _ => insertOutcome

-- ============================================================================
-- Tool handlers (`server/main.py`)
-- ============================================================================

/-- Python truthiness of a value. -/
def truthy : PyVal → Bool
  | .pynone => false
  | .bool b => b
  | .int n => decide (n ≠ 0)
  | .str s => !s.isEmpty
  | .list xs => !xs.isEmpty
  | .dict xs => !xs.isEmpty

/-- The "not initialized" reply of `ask_project_document` (lines 376-381). -/
def docStoreNotInitMsg : String :=
  "Error: Document store is not initialized. " ++
    "Please configure RAG_REPO_URL or RAG_LOCAL_DOCS_PATH environment variable " ++
    "and restart the server."

/-- The generic backend-failure reply of `ask_project_document` (line 392):
`f"Error: Failed to execute RAG query: {str(e)}"`. -/
def ragQueryFailMsg (e : String) : String :=
  "Error: Failed to execute RAG query: " ++ e

/-- `ask_project_document` (`server/main.py` lines 362-392).  `ragClient`
and `storeId` are the server-state handles; `queryOutcome` is the outcome
of `rag_client.query_docs` (answer text, or a raised exception rendered by
`str(e)`).  The call is awaited directly — the handler wraps it in no
timeout — and every exception is converted to the generic failure string. -/
def askProjectDocument (ragClient : Bool) (storeId : Option String)
    (queryOutcome : Except String String) : String :=
  if !ragClient || storeId.isNone then docStoreNotInitMsg
  else
    match queryOutcome with
    | .ok answer => answer
    | .error e => ragQueryFailMsg e

/-- `get_store_info` (`server/main.py` lines 395-405); f-string rendering
of a `None` store id prints `None`. -/
def getStoreInfo (storeName storeId : Option String) : String :=
  match storeName with
  | none => "No document store is currently initialized."
  | some n =>
    "Document Store: " ++ n ++ "\nStore ID: " ++
      (match storeId with
       | some i => i
       | none => "None")

/-- The unavailable-backend reply shared by the two experience tools. -/
def expUnavailableMsg : String :=
  "Error: Experience Store or Gemini Client is not available."

/-- The parse-failure reply shared by the two experience tools. -/
def invalidDataMsg : String :=
  "Error: Invalid data format. Please provide valid TOON or JSON string."

/-- `ask_code_pattern` (`server/main.py` lines 470-524) up to its backend
calls: guard on the handles, parse, and on success return the text of the
`generate_content` call (parameter `generated`); the search-context and
prompt construction only feed that external call. -/
def askCodePattern (available : Bool) (yamlP jsonP : String → Except Unit PyVal)
    (request_data : String) (generated : String) : String :=
  if !available then expUnavailableMsg
  else
    match parseCodeRequest yamlP jsonP request_data with
    | some (.dict _) => generated
    | _ => invalidDataMsg

/-- Calls `tell_code_pattern` makes, in order. -/
inductive TellEvent where
  | addExp
  | searchExp
  | generateAdvice
deriving Repr, DecidableEq

/-- The learning confirmation prefix (line 552). -/
def learningMsg (uuid : String) : String :=
  "[System] 経験を学習しました。 (ID: " ++ uuid ++ ")\n\n"

/-- The no-precedent-found reply tail (line 582). -/
def noPrecedentMsg : String :=
  "過去に類似の成功事例は見つかりませんでした。この失敗は将来の参照のために記録されました。"

/-- The success acknowledgment tail (line 584). -/
def successAckMsg : String :=
  "素晴らしい！この成功体験は将来の実装アドバイスに反映されます。"

/-- The remediation header (line 580). -/
def adviceHeader : String := "### 過去の成功事例に基づく改善案:\n"

/-- The `context_str` loop of `tell_code_pattern` (lines 567-571): each
search hit whose `properties.success` is truthy contributes a block built
from its pattern and code; rendering of missing fields prints `None`.
Search hits are the `properties` dicts of the entries
`search_experience` returns (`weaviate_store.py` lines 114-121). -/
def failContext : Nat → List (List (String × PyVal)) → String
  | _, [] => ""
  | i, props :: rest =>
    (if (pyLookup props "success").any truthy then
      "\n- Successful Pattern " ++ toString (i + 1) ++ ": " ++
        pyStr ((pyLookup props "pattern").getD .pynone) ++ "\nCode: " ++
        pyStr ((pyLookup props "code_result").getD .pynone) ++ "\n"
    else "") ++ failContext (i + 1) rest

/-- `tell_code_pattern` (`server/main.py` lines 528-584), returning the
reply together with the ordered list of backend calls it makes.
`insertOutcome` is the external part of `add_experience`;
`searchResults` are the `properties` dicts returned by
`search_experience`; `generated` is the `generate_content` text.
The `result_val` chain re-read after the insert succeeds is exactly
`resultField` (the insert already evaluated the same chain). -/
def tellCodePattern (available : Bool) (yamlP jsonP : String → Except Unit PyVal)
    (request_data : String) (insertOutcome : Except String String)
    (searchResults : List (List (String × PyVal))) (generated : String) :
    String × List TellEvent :=
  if !available then (expUnavailableMsg, [])
  else
    match parseCodeRequest yamlP jsonP request_data with
    | some (.dict d) =>
      match addExperienceCall d insertOutcome with
      | .error e => ("Error recording experience: " ++ e, [.addExp])
      | .ok uuid =>
        let learning := learningMsg uuid
        if (match resultField d with
            | some (.str s) => s == "FAILED"
            | _ => false) then
          let contextStr := failContext 0 searchResults
          if !contextStr.isEmpty then
            (learning ++ adviceHeader ++ generated,
              [.addExp, .searchExp, .generateAdvice])
          else
            (learning ++ noPrecedentMsg, [.addExp, .searchExp])
        else (learning ++ successAckMsg, [.addExp])
    | _ => (invalidDataMsg, [])

-- ============================================================================
-- Startup lifespan (`server/main.py` lines 229-332)
-- ============================================================================

/-- The configuration fields the lifespan reads (`core/config.py`). -/
structure RagConfig where
  rag_store_name : Option String
  rag_repo_url : Option String
  rag_local_docs_path : Option String
  rag_force_reindex : Bool

/-- `Config.has_document_source`: repo URL or local path present and
non-empty (Python truthiness of the optional strings). -/
def hasDocumentSource (cfg : RagConfig) : Bool :=
  (cfg.rag_repo_url.any (fun s => !s.isEmpty)) ||
    (cfg.rag_local_docs_path.any (fun s => !s.isEmpty))

/-- The mutable `ServerState` (`server/main.py` lines 214-223); client
handles modelled by their presence. -/
structure ServerState where
  rag_client : Bool
  experience_store : Bool
  store_name : Option String
  store_id : Option String
deriving Repr

/-- Startup actions that reach the document backend. -/
inductive StartupEvent where
  | checkStore (displayName : String)
  | initRepo
  | initLocal
deriving Repr, DecidableEq

/-- The display name the lifespan derives (lines 269-275): an explicit
configured name wins, else the repo URL derivation, else the local-path
derivation (`pathName` stands for `generate_store_name_from_path`, which
resolves against the filesystem). -/
def deriveDisplayName (cfg : RagConfig) (pathName : String → String) : String :=
  match cfg.rag_store_name with
  | some n =>
    if n.isEmpty then
      match cfg.rag_repo_url with
      | some u => if u.isEmpty then pathName (cfg.rag_local_docs_path.getD "")
                  else generate_store_name_from_url u
      | none => pathName (cfg.rag_local_docs_path.getD "")
    else n
  | none =>
    match cfg.rag_repo_url with
    | some u => if u.isEmpty then pathName (cfg.rag_local_docs_path.getD "")
                else generate_store_name_from_url u
    | none => pathName (cfg.rag_local_docs_path.getD "")

/-- The lifespan startup sequence (lines 229-327), returning the resulting
server state and the ordered backend actions.  External outcomes are
parameters: `expOk` — the `ExperienceStore()` construction; `clientOk` —
the `GeminiClient()` construction; `check` — `check_store_exists`
(which may raise); `repoInit` / `localInit` — the
`init_store_from_repo` / `init_store_from_local` results
`(display_name, store_id, uploaded)` or a raised error.  Exceptions inside
the resolution `try` are caught and leave the store fields unset. -/
def lifespanStartup (cfg : RagConfig) (pathName : String → String)
    (expOk clientOk : Bool) (check : Except String (Option String × Bool))
    (repoInit localInit : Except String (String × String × List String)) :
    ServerState × List StartupEvent :=
  let st0 : ServerState :=
    { rag_client := false, experience_store := expOk
      store_name := none, store_id := none }
  if !hasDocumentSource cfg then (st0, [])
  else if !clientOk then (st0, [])
  else
    let st1 := { st0 with rag_client := true }
    let displayName := deriveDisplayName cfg pathName
    match check with
    | .error _ => (st1, [.checkStore displayName])
    | .ok (existingStore, exists_) =>
      if exists_ && existingStore.any (fun s => !s.isEmpty) &&
          !cfg.rag_force_reindex then
        ({ st1 with store_name := some displayName
                    store_id := existingStore },
          [.checkStore displayName])
      else
        if cfg.rag_repo_url.any (fun s => !s.isEmpty) then
          match repoInit with
          | .ok (dn, sid, _) =>
            ({ st1 with store_name := some dn, store_id := some sid },
              [.checkStore displayName, .initRepo])
          | .error _ => (st1, [.checkStore displayName, .initRepo])
        else
          match localInit with
          | .ok (dn, sid, _) =>
            ({ st1 with store_name := some dn, store_id := some sid },
              [.checkStore displayName, .initLocal])
          | .error _ => (st1, [.checkStore displayName, .initLocal])

-- ============================================================================
-- `init_store_from_repo` (`server/main.py` lines 108-170)
-- ============================================================================

/-- Outcome of the bounded `git clone` subprocess (lines 127-137). -/
inductive CloneOutcome where
  | timedOut
  | completed (returncode : Int) (stderrText : String)
deriving Repr

/-- The `try` body of `init_store_from_repo` (lines 126-165): clone with a
120s bound, resolve the docs path, collect files, upload; each failure
raises.  `uploadOutcome` is the external `upload_documents` result. -/
def initStoreFromRepoBody (displayName storeId : String)
    (clone : CloneOutcome) (docsPathFound : Bool) (files : List String)
    (uploadOutcome : Except String (List String)) :
    Except String (String × String × List String) :=
  match clone with
  | .timedOut => .error "Git clone timed out after 120 seconds"
  | .completed rc stderrText =>
    if rc ≠ 0 then .error ("Git clone failed: " ++ stderrText)
    else if !docsPathFound then .error "Docs path not found"
    else if files.isEmpty then .error "No documentation files found"
    else
      match uploadOutcome with
      | .ok uploaded => .ok (displayName, storeId, uploaded)
      | .error e => .error e

/-- `init_store_from_repo` from the point the temporary directory exists:
the body runs inside `try`, and the `finally` block removes the directory
(`shutil.rmtree` guarded by an existence check) before the result — value
or exception — leaves the function.  The second component is whether the
temporary directory still exists afterwards. -/
def initStoreFromRepoRun (displayName storeId : String)
    (clone : CloneOutcome) (docsPathFound : Bool) (files : List String)
    (uploadOutcome : Except String (List String)) :
    Except String (String × String × List String) × Bool :=
  let result := initStoreFromRepoBody displayName storeId clone
    docsPathFound files uploadOutcome
  -- finally: if Path(temp_dir).exists(): shutil.rmtree(temp_dir)
  let tempDirExistsAfter := false
  (result, tempDirExistsAfter)

-- ============================================================================
-- Shared lemmas about the name-normalization pipeline
-- ============================================================================

/-- All three store-name well-formedness conditions of §8 of the spec:
only `[a-z0-9-]`, no leading dash, no trailing dash. -/
def validStoreChars (s : String) : Bool :=
  s.data.all allowedChar && s.data.head?.all (fun c => c != '-') &&
    s.data.getLast?.all (fun c => c != '-')

-- ============================================================================
-- Concrete evaluations of the embedded operations
-- ============================================================================
example :
    generate_store_name_from_url "https://github.com/Krz-Tech/minecraft-project"
      = "krz-tech-minecraft-project" := by decide

example : generate_store_name_from_url "git@github.com:user/repo.git" = "user-repo" := by
  decide

example :
    generate_store_name_from_url "alice@github.com:User/Repo.git"
      = "alicegithubcomuser-repo" := by decide

example : generate_store_name_from_url "!!!" = "unknown-repo" := by decide

example : parseCodeRequestRun "request:\n  language: Python\n" = some pythonLangDict := by
  rfl

example :
    parseCodeRequestRun "\x7b\"request\": \x7b\"language\": \"Python\"\x7d\x7d"
      = some pythonLangDict := by rfl

example :
    parseCodeRequestRun
        "\"\x7b\\\"request\\\": \x7b\\\"language\\\": \\\"Python\\\"\x7d\x7d\""
      = some pythonLangDict := by rfl

example : parseCodeRequestRun "not a valid payload \x7b\x7b\x7b" = none := by rfl

example :
    insertedSuccess [("request", .dict [("content", .dict [("result", .str "SUCCESS")])])]
      = some true := by rfl

example :
    insertedSuccess [("request", .dict [("content", .dict [("result", .str "FAILED")])])]
      = some false := by rfl

example : insertedSuccess [] = some false := by rfl

theorem mem_stripDashes {c : Char} {l : List Char} (h : c ∈ stripDashes l) :
    c ∈ l := by
  unfold stripDashes at h
  have h1 := List.mem_reverse.mp h
  have h2 := (List.dropWhile_sublist (fun c => c == '-')).mem h1
  have h3 := List.mem_reverse.mp h2
  exact (List.dropWhile_sublist (fun c => c == '-')).mem h3

theorem head?_dropWhile_dash (l : List Char) :
    (l.dropWhile (fun c => c == '-')).head?.all (fun c => c != '-') = true := by
  induction l with
  | nil => simp
  | cons a l ih =>
    by_cases h : a = '-'
    · simpa [List.dropWhile_cons, h] using ih
    · simp [List.dropWhile_cons, h]

theorem getLast?_dropWhile_dash (l : List Char)
    (hne : l.getLast?.all (fun c => c != '-') = true) :
    (l.dropWhile (fun c => c == '-')).getLast?.all (fun c => c != '-') = true := by
  rcases hy : l.dropWhile (fun c => c == '-') with _ | ⟨x, xs⟩
  · simp
  · have hsplit := List.takeWhile_append_dropWhile (fun c => c == '-') l
    have hlast : l.getLast? = (x :: xs).getLast? := by
      rw [← hsplit, hy, List.getLast?_append_of_ne_nil _ (by simp)]
    rw [← hlast]
    exact hne

theorem stripDashes_head (l : List Char) :
    (stripDashes l).head?.all (fun c => c != '-') = true := by
  unfold stripDashes
  rw [List.head?_reverse]
  refine getLast?_dropWhile_dash _ ?_
  rw [List.getLast?_reverse]
  exact head?_dropWhile_dash l

theorem stripDashes_getLast (l : List Char) :
    (stripDashes l).getLast?.all (fun c => c != '-') = true := by
  unfold stripDashes
  rw [List.getLast?_reverse]
  exact head?_dropWhile_dash _

theorem validStoreChars_storeNameOfChars (l : List Char) :
    validStoreChars (storeNameOfChars l) = true := by
  rcases hs : normalizedStoreChars l with _ | ⟨x, xs⟩
  · have : storeNameOfChars l = "unknown-repo" := by
      simp [storeNameOfChars, hs]
    rw [this]
    decide
  · have hmem : ∀ c ∈ normalizedStoreChars l, allowedChar c = true := by
      intro c hc
      unfold normalizedStoreChars at hc
      exact (List.mem_filter.mp (mem_stripDashes hc)).2
    have hhead : (normalizedStoreChars l).head?.all (fun c => c != '-') = true :=
      stripDashes_head _
    have hlast : (normalizedStoreChars l).getLast?.all (fun c => c != '-') = true :=
      stripDashes_getLast _
    rw [hs] at hmem hhead hlast
    have hval : storeNameOfChars l = ⟨x :: xs⟩ := by
      simp [storeNameOfChars, hs]
    rw [hval]
    simp only [validStoreChars, Bool.and_eq_true]
    exact ⟨⟨List.all_eq_true.mpr hmem, hhead⟩, hlast⟩

/-- C7.  For every repository URL string, `generate_store_name_from_url`
returns characters drawn from `[a-z0-9-]` only, with no leading or
trailing dash, and returns the sentinel `"unknown-repo"` when the
normalization of the extracted path is empty. -/
theorem generate_store_name_from_url_valid (repo_url : String) :
    validStoreChars (generate_store_name_from_url repo_url) = true ∧
    (normalizedStoreChars (urlPathOf repo_url) = [] →
      generate_store_name_from_url repo_url = "unknown-repo") := by
  constructor
  · exact validStoreChars_storeNameOfChars (urlPathOf repo_url)
  · intro h
    simp [generate_store_name_from_url, storeNameOfChars, h]

/-- C7 witness: the sentinel branch taken at a URL whose path normalizes
to nothing, and the well-formedness at a regular URL. -/
theorem generate_store_name_from_url_valid_witness :
    generate_store_name_from_url "!!!" = "unknown-repo" ∧
    validStoreChars
      (generate_store_name_from_url "https://github.com/Krz-Tech/minecraft-project")
      = true :=
  ⟨(generate_store_name_from_url_valid "!!!").2 (by decide),
   (generate_store_name_from_url_valid
     "https://github.com/Krz-Tech/minecraft-project").1⟩

/-- C8 (amended).  Only URLs whose stripped form begins with the literal
prefix `git@` are treated as SSH-style: for those, the derived name comes
from the part after the last colon alone, so the `git@host` part cannot
contribute characters. -/
theorem ssh_url_uses_path_after_colon (repo_url : String)
    (h : "git@".data.isPrefixOf (removeSuffixGit (rstripSlash repo_url.data))
        = true) :
    generate_store_name_from_url repo_url =
      storeNameOfChars
        (afterLastColon (removeSuffixGit (rstripSlash repo_url.data))) := by
  unfold generate_store_name_from_url urlPathOf
  simp only [h, if_true]

/-- C8 witness: the docstring example `git@github.com:user/repo.git`. -/
theorem ssh_url_uses_path_after_colon_witness :
    generate_store_name_from_url "git@github.com:user/repo.git" =
      storeNameOfChars
        (afterLastColon
          (removeSuffixGit (rstripSlash "git@github.com:user/repo.git".data))) :=
  ssh_url_uses_path_after_colon "git@github.com:user/repo.git" (by decide)

/-- C8 counterexample.  The claim quantifies over every SSH-style
`user@host:path` URL, but the source only tests for the literal `git@`
prefix: with user `alice` the whole URL is fed through the HTTP branch,
the host characters survive into the store name, and the result differs
from the normalization of the path after the colon. -/
theorem ssh_url_other_user_leaks_host :
    generate_store_name_from_url "alice@github.com:User/Repo.git"
        = "alicegithubcomuser-repo" ∧
    storeNameOfChars
        (afterLastColon
          (removeSuffixGit (rstripSlash "alice@github.com:User/Repo.git".data)))
        = "user-repo" ∧
    ("alicegithubcomuser-repo" == "user-repo") = false := by
  refine ⟨by decide, by decide, by decide⟩

/-- C1 counterexample.  `ask_project_document` (`server/main.py` lines
362-392) wraps `query_docs` in no timeout at all: a timeout surfacing from
the backend as an exception is rendered by the same generic
`"Error: Failed to execute RAG query: ..."` formatting as any other
backend failure, so no fixed "timed out" message distinct from the
backend-failure message exists. -/
theorem ask_project_document_no_timeout_path :
    askProjectDocument true (some "fileSearchStores/abc")
        (.error "TimeoutError") =
      ragQueryFailMsg "TimeoutError" ∧
    askProjectDocument true (some "fileSearchStores/abc")
        (.error "backend unavailable") =
      ragQueryFailMsg "backend unavailable" ∧
    (ragQueryFailMsg "TimeoutError" == "Error: RAG query timed out.") = false := by
  refine ⟨rfl, rfl, by decide⟩

/-- C1 (amended).  With the document-store handle and client set,
`ask_project_document` awaits `query_docs` directly with no overall
timeout; a successful answer is returned as-is and every raised exception
— timeouts included — becomes the generic
`"Error: Failed to execute RAG query: " ++ str(e)` message; without the
handles it returns the fixed "not initialized" message. -/
theorem ask_project_document_behavior (storeId answer e : String) :
    askProjectDocument true (some storeId) (.ok answer) = answer ∧
    askProjectDocument true (some storeId) (.error e) = ragQueryFailMsg e ∧
    askProjectDocument false none (.ok answer) = docStoreNotInitMsg := by
  refine ⟨rfl, rfl, rfl⟩

/-- C9.  Once `init_store_from_repo` has created its temporary clone
directory, the `finally` block removes it on every exit path: clone
timeout, nonzero clone exit, missing docs path, empty file set, upload
failure, and success. -/
theorem init_store_from_repo_cleanup (displayName storeId : String)
    (clone : CloneOutcome) (docsPathFound : Bool) (files : List String)
    (uploadOutcome : Except String (List String)) :
    (initStoreFromRepoRun displayName storeId clone docsPathFound files
        uploadOutcome).2 = false := by
  rfl

/-- C10.  After any startup run, `store_name` and `store_id` are set
together: one is `none` exactly when the other is, and whenever
`get_store_info` reports a display name the reported backend id is that of
an existing `some` store id (never the `None` rendering). -/
theorem server_state_store_fields_paired (cfg : RagConfig)
    (pathName : String → String) (expOk clientOk : Bool)
    (check : Except String (Option String × Bool))
    (repoInit localInit : Except String (String × String × List String)) :
    ((lifespanStartup cfg pathName expOk clientOk check repoInit
        localInit).1.store_name.isNone =
      (lifespanStartup cfg pathName expOk clientOk check repoInit
        localInit).1.store_id.isNone) ∧
    (getStoreInfo
        (lifespanStartup cfg pathName expOk clientOk check repoInit
          localInit).1.store_name
        (lifespanStartup cfg pathName expOk clientOk check repoInit
          localInit).1.store_id =
        "No document store is currently initialized." ∨
      ∃ n i,
        (lifespanStartup cfg pathName expOk clientOk check repoInit
          localInit).1.store_name = some n ∧
        (lifespanStartup cfg pathName expOk clientOk check repoInit
          localInit).1.store_id = some i ∧
        getStoreInfo (some n) (some i) =
          "Document Store: " ++ n ++ "\nStore ID: " ++ i) := by
  unfold lifespanStartup
  rcases hds : hasDocumentSource cfg with _ | _
  · simp [getStoreInfo]
  · rcases hc : clientOk with _ | _
    · simp [getStoreInfo]
    · simp only [Bool.not_true, Bool.false_eq_true, if_false, Bool.not_false,
        if_true]
      rcases check with e | ⟨existingStore, exists_⟩
      · simp [getStoreInfo]
      · by_cases hreuse : (exists_ && existingStore.any (fun s => !s.isEmpty) &&
            !cfg.rag_force_reindex) = true
        · rcases existingStore with _ | sid
          · simp at hreuse
          · simp only [Bool.and_eq_true, Bool.not_eq_true', Option.any_some] at hreuse
            simp [hreuse.1.1, hreuse.1.2, hreuse.2, getStoreInfo]
        · simp only [hreuse, if_false]
          by_cases hrepo : (cfg.rag_repo_url.any fun s => !s.isEmpty) = true
          · rcases repoInit with e | ⟨dn, sid, up⟩
            · simp [hrepo, getStoreInfo]
            · simp [hrepo, getStoreInfo]
          · simp only [Bool.not_eq_true] at hrepo
            rcases localInit with e | ⟨dn, sid, up⟩
            · simp [hrepo, getStoreInfo]
            · simp [hrepo, getStoreInfo]

/-- C2.  When a document source is configured, the client initializes, the
backend reports an existing store under the derived display name (a
non-empty id), and force-reindex is off, startup never enters the upload
path — the only backend action is the existence check, with no
`init_store_from_repo` / `init_store_from_local` call — and the server
state adopts the derived display name together with the existing backend
id. -/
theorem startup_reuses_existing_store (cfg : RagConfig)
    (pathName : String → String) (expOk : Bool) (storeId : String)
    (repoInit localInit : Except String (String × String × List String))
    (hsrc : hasDocumentSource cfg = true)
    (hforce : cfg.rag_force_reindex = false)
    (hid : storeId.isEmpty = false) :
    lifespanStartup cfg pathName expOk true (.ok (some storeId, true))
        repoInit localInit =
      ({ rag_client := true, experience_store := expOk
         store_name := some (deriveDisplayName cfg pathName)
         store_id := some storeId },
        [.checkStore (deriveDisplayName cfg pathName)]) ∧
    ((lifespanStartup cfg pathName expOk true (.ok (some storeId, true))
        repoInit localInit).2.contains .initRepo) = false ∧
    ((lifespanStartup cfg pathName expOk true (.ok (some storeId, true))
        repoInit localInit).2.contains .initLocal) = false := by
  have h : lifespanStartup cfg pathName expOk true (.ok (some storeId, true))
      repoInit localInit =
      ({ rag_client := true, experience_store := expOk
         store_name := some (deriveDisplayName cfg pathName)
         store_id := some storeId },
        [.checkStore (deriveDisplayName cfg pathName)]) := by
    unfold lifespanStartup
    simp [hsrc, hforce, hid]
  refine ⟨h, ?_, ?_⟩ <;> rw [h] <;> rfl

/-- C2 witness: a concrete configuration with a repo URL, force-reindex
off, and an existing backend store. -/
theorem startup_reuses_existing_store_witness :
    lifespanStartup
        { rag_store_name := none
          rag_repo_url := some "https://github.com/user/repo"
          rag_local_docs_path := none
          rag_force_reindex := false }
        (fun _ => "localname") true true
        (.ok (some "fileSearchStores/xyz", true)) (.error "") (.error "") =
      ({ rag_client := true, experience_store := true
         store_name := some "user-repo"
         store_id := some "fileSearchStores/xyz" },
        [.checkStore "user-repo"]) := by
  rw [(startup_reuses_existing_store
    { rag_store_name := none
      rag_repo_url := some "https://github.com/user/repo"
      rag_local_docs_path := none
      rag_force_reindex := false }
    (fun _ => "localname") true "fileSearchStores/xyz"
    (.error "") (.error "") (by decide) (by decide) (by decide)).1]
  rfl

/-- C5.  For every record `add_experience` actually inserts, the stored
`success` flag is exactly the comparison of `request.content.result`
against the token `"SUCCESS"`; and that comparison is true precisely for
the string value `"SUCCESS"` (any other value, type, or a missing field
gives `false`). -/
theorem add_experience_success_flag :
    (∀ d : List (String × PyVal),
      insertedSuccess d = none ∨
        insertedSuccess d = some (isSuccessToken (resultField d))) ∧
    (∀ v : Option PyVal,
      isSuccessToken v = true ↔ v = some (PyVal.str "SUCCESS")) := by
  constructor
  · intro d
    unfold insertedSuccess addExperienceRecord resultField
    rcases pyGetD d "request" (PyVal.dict []) with _ | b | n | s | xs | r <;>
      try (left; rfl)
    dsimp only
    rcases pyGetD r "design_context" (PyVal.dict []) with _ | b | n | s | xs | dc <;>
      try (left; rfl)
    dsimp only
    rcases pyGetD r "content" (PyVal.dict []) with _ | b | n | s | xs | c <;>
      try (left; rfl)
    dsimp only
    rcases pyGetD r "reproduction" (PyVal.dict []) with _ | b | n | s | xs | rp <;>
      try (left; rfl)
    dsimp only
    rcases pyGetD r "metrics" (PyVal.dict []) with _ | b | n | s | xs | m <;>
      try (left; rfl)
    right
    rfl
  · intro v
    rcases v with _ | ⟨_ | b | n | s | xs | e⟩ <;> simp [isSuccessToken]

/-- C5 witness: the success report stores `success = true`, via the main
theorem applied at a concrete record. -/
theorem add_experience_success_flag_witness :
    insertedSuccess
        [("request", .dict [("content", .dict [("result", .str "SUCCESS")])])] =
      some (isSuccessToken (resultField
        [("request", .dict [("content", .dict [("result", .str "SUCCESS")])])])) := by
  rcases add_experience_success_flag.1
      [("request", .dict [("content", .dict [("result", .str "SUCCESS")])])] with
    h | h
  · exact absurd
      ((by rfl : insertedSuccess
          [("request", .dict [("content", .dict [("result", .str "SUCCESS")])])] =
        some true).symm.trans h) (by simp)
  · exact h

/-- C3.  For every decoder behavior and every input string, the request
parser yields either a mapping or a failure value that `ask_code_pattern`
renders as the fixed invalid-data error string (never an exception); in
particular, with the modelled decoders the input
`"not a valid payload {{{"` (braces written escaped) yields the failure
value and the tool answers with the fixed error string. -/
theorem parse_code_request_total :
    (∀ (yamlP jsonP : String → Except Unit PyVal) (s g : String),
      (∃ entries, parseCodeRequest yamlP jsonP s = some (.dict entries)) ∨
        askCodePattern true yamlP jsonP s g = invalidDataMsg) ∧
    parseCodeRequestRun "not a valid payload \x7b\x7b\x7b" = none ∧
    askCodePattern true yamlModel jsonLoads "not a valid payload \x7b\x7b\x7b"
        "generated text" = invalidDataMsg := by
  refine ⟨?_, rfl, rfl⟩
  intro yamlP jsonP s g
  rcases h : parseCodeRequest yamlP jsonP s with _ | ⟨_ | b | n | str | xs | entries⟩
  · right; simp [askCodePattern, h]
  · right; simp [askCodePattern, h]
  · right; simp [askCodePattern, h]
  · right; simp [askCodePattern, h]
  · right; simp [askCodePattern, h]
  · right; simp [askCodePattern, h]
  · exact Or.inl ⟨entries, rfl⟩

/-- C4.  The three encodings of the same logical payload — the compact
line-oriented form, plain JSON, and double-encoded JSON — all parse to the
same mapping, whose `request.language` is `"Python"`. -/
theorem parse_code_request_encodings :
    parseCodeRequestRun "request:\n  language: Python\n" = some pythonLangDict ∧
    parseCodeRequestRun "\x7b\"request\": \x7b\"language\": \"Python\"\x7d\x7d" =
      some pythonLangDict ∧
    parseCodeRequestRun
        "\"\x7b\\\"request\\\": \x7b\\\"language\\\": \\\"Python\\\"\x7d\x7d\"" =
      some pythonLangDict ∧
    requestLanguage pythonLangDict = some (.str "Python") := by
  refine ⟨rfl, rfl, rfl, rfl⟩

theorem failContext_empty (rs : List (List (String × PyVal)))
    (h : ∀ props ∈ rs, (pyLookup props "success").any truthy = false) :
    ∀ i, failContext i rs = "" := by
  induction rs with
  | nil => intro i; rfl
  | cons props rest ih =>
    intro i
    have hp := h props (List.mem_cons_self props rest)
    have hr := ih (fun q hq => h q (List.mem_cons_of_mem props hq))
    simp [failContext, hp, hr]

/-- C6.  A parsed request whose `content.result` is `"FAILED"` drives
`tell_code_pattern` to call `add` first and `search` second; when no
search hit has a truthy `success` property, the reply is the learning
confirmation followed by the no-precedent-found note, and
`generate_content` is never called. -/
theorem tell_code_pattern_failed_no_precedent
    (yamlP jsonP : String → Except Unit PyVal) (s uuid g : String)
    (d : List (String × PyVal)) (searchResults : List (List (String × PyVal)))
    (hparse : parseCodeRequest yamlP jsonP s = some (.dict d))
    (hadd : addExperienceCall d (.ok uuid) = .ok uuid)
    (hfailed : resultField d = some (.str "FAILED"))
    (hnosucc : ∀ props ∈ searchResults,
      (pyLookup props "success").any truthy = false) :
    tellCodePattern true yamlP jsonP s (.ok uuid) searchResults g =
      (learningMsg uuid ++ noPrecedentMsg, [.addExp, .searchExp]) := by
  unfold tellCodePattern
  rw [hparse]
  simp only [hadd, hfailed, Bool.not_true, Bool.false_eq_true, if_false,
    failContext_empty searchResults hnosucc 0]
  simp
  decide

/-- C6 witness: a concrete FAILED report with an empty search result. -/
theorem tell_code_pattern_failed_no_precedent_witness :
    tellCodePattern true yamlModel jsonLoads
        "\x7b\"request\": \x7b\"content\": \x7b\"result\": \"FAILED\"\x7d\x7d\x7d"
        (.ok "uuid-1") [] "advice" =
      (learningMsg "uuid-1" ++ noPrecedentMsg, [.addExp, .searchExp]) :=
  tell_code_pattern_failed_no_precedent yamlModel jsonLoads _ "uuid-1" "advice"
    [("request", .dict [("content", .dict [("result", .str "FAILED")])])] []
    (by rfl) (by rfl) (by rfl) (by simp)
